import Mathlib

/-!
Shallow embedding of the Adobe_1-B batch file-analysis utility
(`src/main.py` and `src/app/utils.py`).

The Python program is dynamically typed; parsed JSON values, analysis
results and per-file reports are modelled by the inductive type `Json`.
External library calls (the `json`, `hashlib` and `datetime` modules of
the Python standard library, and the PDF extraction libraries) are not
part of the repository; they are modelled as fields of a `PyEnv`
environment record, and all theorems are stated for every environment.
Python exceptions are modelled by `Except String`; every `try/except`
block of the source becomes a `match` on an `Except` value.

Unicode-sensitive character predicates (`str.isalnum`, `str.isspace`,
`str.lower`) are modelled by their ASCII behaviour, which agrees with
Python on all inputs appearing in the claims.
-/

namespace FileAnalysis

/-- Model of a Python value produced by parsing JSON (and of the
JSON-serialisable dictionaries the program builds): `null`/`bool`/`num`/
`rat`/`str`/`arr`/`obj` stand for Python `None`, `bool`, `int`, `float`,
`str`, `list` and `dict`. Dictionaries are association lists in insertion
order, as in Python 3.7+. -/
inductive Json where
  | null : Json
  | bool (b : Bool) : Json
  | num (n : Int) : Json
  | rat (q : Rat) : Json
  | str (s : String) : Json
  | arr (xs : List Json) : Json
  | obj (kvs : List (String × Json)) : Json

mutual

/-- Structural equality on `Json`, modelling Python `==` on parsed JSON
values. (Python's `True == 1` quirk is not modelled; the program only
ever compares strings against container elements, where the two agree.) -/
def Json.beq : Json → Json → Bool
  | .null, .null => true
  | .bool a, .bool b => a == b
  | .num a, .num b => a == b
  | .rat a, .rat b => a == b
  | .str a, .str b => a == b
  | .arr xs, .arr ys => Json.beqList xs ys
  | .obj xs, .obj ys => Json.beqObj xs ys
  | _, _ => false

/-- Elementwise `Json.beq` on lists. -/
def Json.beqList : List Json → List Json → Bool
  | [], [] => true
  | x :: xs, y :: ys => Json.beq x y && Json.beqList xs ys
  | _, _ => false

/-- Elementwise `Json.beq` on association lists. -/
def Json.beqObj : List (String × Json) → List (String × Json) → Bool
  | [], [] => true
  | (k1, v1) :: xs, (k2, v2) :: ys => k1 == k2 && Json.beq v1 v2 && Json.beqObj xs ys
  | _, _ => false

end

/-- Whitespace characters recognised by Python's `str.split()` and
`str.isspace` (ASCII part: space, tab, newline, carriage return,
vertical tab, form feed, plus the file/group/record separators and NEL). -/
def pyCharIsSpace (c : Char) : Bool :=
  c == ' ' || c == '\t' || c == '\n' || c == '\r' || c == '\x0b' || c == '\x0c' ||
  c == '\x1c' || c == '\x1d' || c == '\x1e' || c == '\x1f' || c == '\x85'

/-- Line-break characters recognised by Python's `str.splitlines`. -/
def pyIsLineBreak (c : Char) : Bool :=
  c == '\n' || c == '\r' || c == '\x0b' || c == '\x0c' ||
  c == '\x1c' || c == '\x1d' || c == '\x1e' || c == '\x85' ||
  c == '\u2028' || c == '\u2029'

/-- Python `str.lower()` (ASCII model). -/
def pyLower (s : String) : String := String.mk (s.data.map Char.toLower)

/-- Worker for `pySplitWs`: `cur` holds the current token reversed. -/
def pySplitWsAux (cur : List Char) : List Char → List String
  | [] => if cur.isEmpty then [] else [String.mk cur.reverse]
  | c :: rest =>
    if pyCharIsSpace c then
      if cur.isEmpty then pySplitWsAux [] rest
      else String.mk cur.reverse :: pySplitWsAux [] rest
    else pySplitWsAux (c :: cur) rest

/-- Python `str.split()` with no argument: split on runs of whitespace,
discarding empty tokens. -/
def pySplitWs (s : String) : List String := pySplitWsAux [] s.data

/-- Worker for `pySplitlines`. -/
def pySplitlinesAux (cur : List Char) : List Char → List String
  | [] => if cur.isEmpty then [] else [String.mk cur.reverse]
  | '\r' :: '\n' :: rest => String.mk cur.reverse :: pySplitlinesAux [] rest
  | c :: rest =>
    if pyIsLineBreak c then String.mk cur.reverse :: pySplitlinesAux [] rest
    else pySplitlinesAux (c :: cur) rest

/-- Python `str.splitlines()`. -/
def pySplitlines (s : String) : List String := pySplitlinesAux [] s.data

/-- Worker for `pySplitOnChar`. -/
def pySplitOnCharAux (sep : Char) (cur : List Char) : List Char → List String
  | [] => [String.mk cur.reverse]
  | c :: rest =>
    if c == sep then String.mk cur.reverse :: pySplitOnCharAux sep [] rest
    else pySplitOnCharAux sep (c :: cur) rest

/-- Python `str.split(sep)` for a one-character separator: keeps empty
pieces, and the split of `""` is `[""]`. -/
def pySplitOnChar (sep : Char) (s : String) : List String := pySplitOnCharAux sep [] s.data

/-- Worker for `pyIn` on character lists. -/
def pyInChars (n : List Char) : List Char → Bool
  | [] => n.isEmpty
  | c :: t => n.isPrefixOf (c :: t) || pyInChars n t

/-- Python `needle in hay` for strings: substring containment. -/
def pyIn (needle hay : String) : Bool := pyInChars needle.data hay.data

/-- Lookup in a `Json.obj` association list, first binding wins
(association lists built by this program never repeat a key). -/
def pyDictGet (j : Json) (k : String) : Option Json :=
  match j with
  | .obj kvs => (kvs.find? (fun p => p.1 == k)).map (fun p => p.2)
  | _ => none

/-- Python `d[k] = v` on a dictionary association list: replace the
binding in place if the key is present, otherwise append it. -/
def pyDictSet (kvs : List (String × Json)) (k : String) (v : Json) : List (String × Json) :=
  if kvs.any (fun p => p.1 == k) then kvs.map (fun p => if p.1 == k then (k, v) else p)
  else kvs ++ [(k, v)]

/-- Python `d.update(new)` on dictionary association lists. -/
def pyUpdate (kvs new : List (String × Json)) : List (String × Json) :=
  new.foldl (fun acc p => pyDictSet acc p.1 p.2) kvs

/-- Python `k in j` for a string `k`: key membership for a dict, element
equality for a list, substring containment for a string, `TypeError`
otherwise. -/
def pyContains (k : String) : Json → Except String Bool
  | .obj kvs => .ok (kvs.any (fun p => p.1 == k))
  | .arr xs => .ok (xs.any (fun x => Json.beq x (.str k)))
  | .str s => .ok (pyIn k s)
  | _ => .error "TypeError: argument is not a container"

/-- Python `j[k]` for a string key `k`: dictionary lookup (`KeyError`
when absent), `TypeError` on any non-dict value. -/
def pySubscript (j : Json) (k : String) : Except String Json :=
  match j with
  | .obj kvs =>
    match kvs.find? (fun p => p.1 == k) with
    | some p => .ok p.2
    | none => .error ("KeyError: " ++ k)
  | _ => .error "TypeError: value cannot be indexed by a string"

/-- Python `j.get(k, d)`: only dictionaries have a `get` method;
anything else raises `AttributeError`. -/
def pyGet (j : Json) (k : String) (d : Json) : Except String Json :=
  match j with
  | .obj kvs => .ok (((kvs.find? (fun p => p.1 == k)).map (fun p => p.2)).getD d)
  | _ => .error "AttributeError: value has no method get"

/-- Python `for x in j`: elements of a list, one-character strings of a
string, keys of a dict, `TypeError` otherwise. -/
def pyIter : Json → Except String (List Json)
  | .arr xs => .ok xs
  | .str s => .ok (s.data.map (fun c => Json.str (String.mk [c])))
  | .obj kvs => .ok (kvs.map (fun p => Json.str p.1))
  | _ => .error "TypeError: value is not iterable"

/-- Extract the underlying strings of a list of `Json` values, raising
`TypeError` on the first non-string (as `str.join` does). -/
def getStrs : List Json → Except String (List String)
  | [] => .ok []
  | .str s :: rest => (getStrs rest).map (fun l => s :: l)
  | _ :: _ => .error "TypeError: sequence item is not a string"

/-- Python `sep.join(xs)`. -/
def pyJoin (sep : String) (xs : List Json) : Except String String :=
  (getStrs xs).map (fun l => String.intercalate sep l)

/-- Python `j.lower()`: only strings have `lower`. -/
def pyLowerJ : Json → Except String String
  | .str s => .ok (pyLower s)
  | _ => .error "AttributeError: value has no method lower"

/-- Python `type(j).__name__` for a parsed JSON value. -/
def typeName : Json → String
  | .null => "NoneType"
  | .bool _ => "bool"
  | .num _ => "int"
  | .rat _ => "float"
  | .str _ => "str"
  | .arr _ => "list"
  | .obj _ => "dict"

/-- Python `str(j)` for the scalar values reachable in
`generate_json_summary`'s else branch. -/
def pyJsonToStr : Json → String
  | .null => "None"
  | .bool true => "True"
  | .bool false => "False"
  | .num n => toString n
  | .rat q => toString q
  | .str s => s
  | .arr _ => "list"
  | .obj _ => "dict"

/-- UTF-8 encoding of one character. -/
def utf8EncodeChar (c : Char) : List Nat :=
  let n := c.toNat
  if n < 128 then [n]
  else if n < 2048 then [192 + n / 64, 128 + n % 64]
  else if n < 65536 then [224 + n / 4096, 128 + (n / 64) % 64, 128 + n % 64]
  else [240 + n / 262144, 128 + (n / 4096) % 64, 128 + (n / 64) % 64, 128 + n % 64]

/-- Python `s.encode('utf-8')` as a list of byte values. -/
def utf8Encode (s : String) : List Nat := (s.data.map utf8EncodeChar).flatten

/-- First `n` characters of a string (Python slice `s[:n]`). -/
def strTake (n : Nat) (s : String) : String := String.mk (s.data.take n)

/-- The file content read by `process_single_file`: text for
`.txt`/`.json`/`.csv` files, raw bytes otherwise. -/
inductive PyContent where
  | text (s : String) : PyContent
  | binary (bs : List Nat) : PyContent

/-- The bytes hashed or measured for a content value (`content.encode()`
for text, the bytes themselves otherwise). -/
def contentBytes : PyContent → List Nat
  | .text s => utf8Encode s
  | .binary bs => bs

/-- The fields of `os.stat_result` used by the program. -/
structure StatInfo where
  st_size : Nat
  st_ctime : Int
  st_mtime : Int

/-- External facilities used by the program, abstracted: `json.loads`
(on text and on bytes, `error` standing for `json.JSONDecodeError`),
`hashlib.md5(...).hexdigest()`, `datetime.fromtimestamp(...).isoformat()`
(which can raise on out-of-range timestamps), `datetime.now().isoformat()`
(one fixed value per run) and `process_pdf_content` (whose body only
calls the third-party PDF libraries). All theorems hold for every
environment. -/
structure PyEnv where
  loads : String → Except String Json
  loadsBytes : List Nat → Except String Json
  md5hex : List Nat → String
  fromtimestampIso : Int → Except String String
  nowIso : String
  processPdf : String → List (String × Json)

/-- One file of the input directory: `Path.name`/`stem`/`suffix`, the
outcome of reading it in text and in binary mode, and the outcome of
`Path.stat()` (stable within one run). -/
structure InputFile where
  name : String
  stem : String
  suffix : String
  readText : Except String String
  readBinary : Except String (List Nat)
  statResult : Except String StatInfo

/-- The token cleaner of `calculate_word_frequency`:
`''.join(c for c in word if c.isalnum())`. -/
def cleanWord (w : String) : String := String.mk (w.data.filter Char.isAlphanum)

/-- `word_count[clean_word] = word_count.get(clean_word, 0) + 1`:
increment in place if present (keeping insertion order), else append. -/
def incrCount (acc : List (String × Nat)) (w : String) : List (String × Nat) :=
  if acc.any (fun p => p.1 == w) then
    acc.map (fun p => if p.1 == w then (p.1, p.2 + 1) else p)
  else acc ++ [(w, 1)]

/-- One iteration of the counting loop of `calculate_word_frequency`:
clean the token and count it when nonempty of length > 2. -/
def countStep (acc : List (String × Nat)) (word : String) : List (String × Nat) :=
  let clean_word := cleanWord word
  if clean_word ≠ "" ∧ clean_word.length > 2 then incrCount acc clean_word else acc

/-- The counting loop of `calculate_word_frequency` over the split words. -/
def wordCounts (ws : List String) : List (String × Nat) := ws.foldl countStep []

/-- The sort order of `sorted(word_count.items(), key=lambda x: x[1],
reverse=True)`: by count, descending. -/
def byCountDesc (a b : String × Nat) : Prop := b.2 ≤ a.2

instance : DecidableRel byCountDesc := fun a b => inferInstanceAs (Decidable (b.2 ≤ a.2))

instance : IsTotal (String × Nat) byCountDesc := ⟨fun a b => le_total b.2 a.2⟩

instance : IsTrans (String × Nat) byCountDesc := ⟨fun _ _ _ h1 h2 => le_trans h2 h1⟩

/-- `calculate_word_frequency` (utils.py lines 465-476): lower-case,
split on whitespace, strip non-alphanumeric characters from each token,
count tokens of length > 2, return the top 5 by descending count
(Python's `sorted` is stable, as is `List.insertionSort`). The result
dict is modelled as its association list in order. -/
def calculate_word_frequency (text : String) : List (String × Nat) :=
  (List.insertionSort byCountDesc (wordCounts (pySplitWs (pyLower text)))).take 5

/-- The fixed positive lexicon of `detect_sentiment_indicators`. -/
def positive_words : List String :=
  ["good", "great", "excellent", "amazing", "wonderful", "fantastic", "love", "like"]

/-- The fixed negative lexicon of `detect_sentiment_indicators`. -/
def negative_words : List String :=
  ["bad", "terrible", "awful", "hate", "dislike", "horrible", "worst", "poor"]

/-- `sum(1 for word in ws if word in t)`. -/
def countOccurring (ws : List String) (t : String) : Nat :=
  ws.countP (fun w => pyIn w t)

/-- `detect_sentiment_indicators` (utils.py lines 478-494): substring
hits of the two fixed lexicons against the lower-cased text; the score
is positive hits minus negative hits. -/
def detect_sentiment_indicators (text : String) : Json :=
  let text_lower := pyLower text
  let positive_count := countOccurring positive_words text_lower
  let negative_count := countOccurring negative_words text_lower
  .obj [("positive_indicators", .num positive_count),
        ("negative_indicators", .num negative_count),
        ("sentiment_score", .num ((positive_count : Int) - (negative_count : Int)))]

/-- The punctuation set stripped in `calculate_avg_word_length`
(the set of `word.strip` there, braces written via escapes). -/
def punctChars : List Char :=
  ['.', ',', '!', '?', ';', ':', '\"', '(', ')', '[', ']', '\x7b', '\x7d']

/-- Python `word.strip(chars)`: drop characters of the set from both ends. -/
def pyStripChars (chars : List Char) (w : String) : String :=
  String.mk (((w.data.dropWhile (fun c => chars.contains c)).reverse.dropWhile
    (fun c => chars.contains c)).reverse)

/-- `calculate_avg_word_length` (utils.py lines 496-504), as an exact
rational; Python additionally rounds the float quotient to 2 decimals,
which is not modelled (no claim depends on the rounded value). -/
def calculate_avg_word_length (text : String) : Rat :=
  let words := pySplitWs text
  if words.isEmpty then 0
  else ((words.map (fun w => (pyStripChars punctChars w).length)).sum : Rat) / (words.length : Rat)

/-- `extract_metadata` (utils.py lines 104-126): `Path.stat` fields, an
MD5 content hash (of the UTF-8 encoding for text), and ISO timestamps;
any exception is caught and returned as an error dictionary. -/
def extract_metadata (env : PyEnv) (f : InputFile) (content : PyContent) : Json :=
  match f.statResult with
  | .error e => .obj [("error", .str e)]
  | .ok stat_info =>
    let content_hash := env.md5hex (contentBytes content)
    match env.fromtimestampIso stat_info.st_ctime with
    | .error e => .obj [("error", .str e)]
    | .ok created =>
      match env.fromtimestampIso stat_info.st_mtime with
      | .error e => .obj [("error", .str e)]
      | .ok modified =>
        .obj [("file_size", .num stat_info.st_size),
              ("created_time", .str created),
              ("modified_time", .str modified),
              ("file_hash", .str content_hash),
              ("extension", .str (pyLower f.suffix)),
              ("encoding", .str (match content with | .text _ => "utf-8" | .binary _ => "binary"))]

/-- The `key_count` value of the JSON structure analysis:
`len(parsed_json)` for a dict, the string `"N/A"` otherwise. -/
def keyCountVal : Json → Json
  | .obj kvs => .num kvs.length
  | _ => .str "N/A"

/-- `analyze_file_content` (utils.py lines 128-185): extension dispatch
over the content. The `.pdf` branch delegates to the (external)
`process_pdf_content`; text-like extensions get counts plus a
JSON-validity or CSV-shape check; images and unknown extensions get size
only. The function's `except` branch is unreachable in the model (every
step below is total). -/
def analyze_file_content (env : PyEnv) (content : PyContent) (file_type : String)
    (file_path : Option String) : Json :=
  let analysis : List (String × Json) := [("content_type", .str file_type), ("size_analysis", .obj [])]
  if file_type == ".pdf" && file_path.isSome then
    .obj (pyUpdate analysis (env.processPdf (file_path.getD "")))
  else if file_type == ".txt" || file_type == ".json" || file_type == ".csv" || file_type == ".md" then
    match content with
    | .text s =>
      let analysis := pyUpdate analysis
        [("character_count", .num s.length),
         ("word_count", .num (pySplitWs s).length),
         ("line_count", .num (pySplitlines s).length),
         ("has_special_chars", .bool (s.data.any (fun c => !c.isAlphanum && !pyCharIsSpace c)))]
      if file_type == ".json" then
        match env.loads s with
        | .ok parsed_json =>
          .obj (pyDictSet analysis "json_structure" (.obj
            [("is_valid_json", .bool true),
             ("top_level_type", .str (typeName parsed_json)),
             ("key_count", keyCountVal parsed_json)]))
        | .error _ =>
          .obj (pyDictSet analysis "json_structure" (.obj [("is_valid_json", .bool false)]))
      else if file_type == ".csv" then
        let lines := pySplitlines s
        .obj (pyDictSet analysis "csv_structure" (.obj
          [("estimated_rows", .num lines.length),
           ("estimated_columns", .num (match lines with | [] => 0 | l :: _ => (pySplitOnChar ',' l).length)),
           ("has_header", .bool true)]))
      else .obj analysis
    | .binary _ => .obj analysis
  else if file_type == ".jpg" || file_type == ".jpeg" || file_type == ".png" ||
      file_type == ".gif" || file_type == ".bmp" then
    .obj (pyUpdate analysis [("is_image", .bool true), ("size_bytes", .num (contentBytes content).length)])
  else
    .obj (pyUpdate analysis [("is_binary", .bool true), ("size_bytes", .num (contentBytes content).length)])

/-- `generate_json_summary` (utils.py lines 248-270). -/
def generate_json_summary (data : Json) : Json :=
  match data with
  | .obj kvs =>
    .obj [("type", .str "object"),
          ("keys", .arr ((kvs.take 10).map (fun p => Json.str p.1))),
          ("total_keys", .num kvs.length),
          ("nested_objects", .num (kvs.countP (fun p => match p.2 with | .obj _ => true | _ => false)))]
  | .arr xs =>
    .obj [("type", .str "array"),
          ("length", .num xs.length),
          ("first_item_type", .str (match xs with | [] => "empty" | x :: _ => typeName x)),
          ("sample_items", .arr (xs.take 3))]
  | _ =>
    let sv := pyJsonToStr data
    .obj [("type", .str (typeName data)),
          ("value", .str (if sv.length > 100 then strTake 100 sv ++ "..." else sv))]

/-- The filename-collection loop of `process_challenge_data` (utils.py
lines 277-280, also lines 513-516): for each item, if it contains the key
`"filename"`, append the subscripted value. -/
def docFilenamesLoop : List Json → Except String (List Json)
  | [] => .ok []
  | d :: rest =>
    match pyContains "filename" d with
    | .error e => .error e
    | .ok true =>
      match pySubscript d "filename" with
      | .error e => .error e
      | .ok fn => (docFilenamesLoop rest).map (fun l => fn :: l)
    | .ok false => docFilenamesLoop rest

/-- `input_documents` extraction shared by `process_challenge_data` and
`generate_hr_professional_output`: if `"documents" in data`, iterate it
and collect each item's `"filename"` value. -/
def extract_input_documents (data : Json) : Except String (List Json) :=
  match pyContains "documents" data with
  | .error e => .error e
  | .ok false => .ok []
  | .ok true =>
    match pySubscript data "documents" with
    | .error e => .error e
    | .ok docsVal =>
      match pyIter docsVal with
      | .error e => .error e
      | .ok items => docFilenamesLoop items

/-- `data.get("persona", {}).get("role", "Unknown")`. -/
def persona_of (data : Json) : Except String Json :=
  match pyGet data "persona" (.obj []) with
  | .error e => .error e
  | .ok p => pyGet p "role" (.str "Unknown")

/-- `data.get("job_to_be_done", {}).get("task", "Unknown")`. -/
def job_of (data : Json) : Except String Json :=
  match pyGet data "job_to_be_done" (.obj []) with
  | .error e => .error e
  | .ok j => pyGet j "task" (.str "Unknown")

/-- The metadata dictionary built by `process_challenge_data` (utils.py
lines 283-288) and by `generate_hr_professional_output` (lines 519-524). -/
def challengeMetadata (env : PyEnv) (input_documents : List Json) (personaJ jobJ : Json) : Json :=
  .obj [("input_documents", .arr input_documents),
        ("persona", personaJ),
        ("job_to_be_done", jobJ),
        ("processing_timestamp", .str env.nowIso)]

/-- The fixed food keyword list of `determine_challenge_type`. -/
def food_keywords : List String := ["breakfast", "dinner", "lunch", "recipe", "food", "meal"]

/-- The fixed travel keyword list of `determine_challenge_type`. -/
def travel_keywords : List String := ["france", "travel", "cities", "cuisine", "hotels"]

/-- The fixed HR keyword list of `determine_challenge_type`. -/
def hr_keywords : List String := ["acrobat", "forms", "fillable", "hr", "onboarding", "compliance"]

/-- `determine_challenge_type` (utils.py lines 304-326): two literal
persona roles short-circuit; otherwise the lower-cased space-join of the
document names is scored against the three keyword lists by substring
hits, HR winning only on a strict maximum, then food on a strict lead
over travel, travel otherwise. -/
def determine_challenge_type (input_documents : List Json) (persona : Json) :
    Except String String :=
  match pyLowerJ persona with
  | .error e => .error e
  | .ok p =>
    if p = "food contractor" then .ok "food_contractor"
    else if p = "hr professional" then .ok "hr_professional"
    else
      match pyJoin " " input_documents with
      | .error e => .error e
      | .ok joined =>
        let doc_text := pyLower joined
        let food_score := countOccurring food_keywords doc_text
        let travel_score := countOccurring travel_keywords doc_text
        let hr_score := countOccurring hr_keywords doc_text
        .ok (if hr_score > max food_score travel_score then "hr_professional"
             else if food_score > travel_score then "food_contractor"
             else "travel_planner")

/-- One `{document, section_title, importance_rank, page_number}` entry. -/
def mkSection (document section_title : String) (importance_rank page_number : Nat) : Json :=
  .obj [("document", .str document),
        ("section_title", .str section_title),
        ("importance_rank", .num importance_rank),
        ("page_number", .num page_number)]

/-- One `{document, refined_text, page_number}` entry. -/
def mkSubsection (document refined_text : String) (page_number : Nat) : Json :=
  .obj [("document", .str document),
        ("refined_text", .str refined_text),
        ("page_number", .num page_number)]

/-- The literal `extracted_sections` list of
`generate_food_contractor_output` (utils.py lines 331-362). -/
def food_extracted_sections : List Json :=
  [mkSection "Dinner Ideas - Sides_2.pdf" "Falafel" 1 7,
   mkSection "Dinner Ideas - Sides_3.pdf" "Ratatouille" 2 8,
   mkSection "Dinner Ideas - Sides_1.pdf" "Baba Ganoush" 3 4,
   mkSection "Lunch Ideas.pdf" "Veggie Sushi Rolls" 4 11,
   mkSection "Dinner Ideas - Mains_2.pdf" "Vegetable Lasagna" 5 9]

/-- The literal `subsection_analysis` list of
`generate_food_contractor_output` (utils.py lines 365-391). -/
def food_subsection_analysis : List Json :=
  [mkSubsection "Dinner Ideas - Sides_2.pdf" "Escalivada Ingredients: 2 eggplants, 2 bell peppers, 2 tomatoes, 1 small onion, 1/4 cup olive oil, 1 teaspoon salt. Instructions: Preheat oven to 400°F (200°C). Roast eggplants, bell peppers, tomatoes, and onion until tender. Peel and slice vegetables. Arrange on a plate and drizzle with olive oil. Sprinkle with salt and serve warm or at room temperature." 7,
   mkSubsection "Dinner Ideas - Sides_2.pdf" "Falafel Ingredients: 1 can chickpeas, 1 small onion, 2 cloves garlic, 1/4 cup parsley, 1 teaspoon cumin, 1 teaspoon coriander, 1 teaspoon salt, 1/4 cup flour, oil for frying. Instructions: Drain and rinse chickpeas. Blend chickpeas, diced onion, minced garlic, chopped parsley, cumin, coriander, and salt in a food processor. Add flour and mix until combined. Form mixture into balls and fry in hot oil until golden." 7,
   mkSubsection "Dinner Ideas - Sides_1.pdf" "Baba Ganoush Ingredients: 2 eggplants, 1/4 cup tahini, 1/4 cup lemon juice, 2 cloves garlic, 1/4 cup olive oil, 1 teaspoon salt. Instructions: Roast eggplants until soft, then peel and mash. Blend mashed eggplant, tahini, lemon juice, minced garlic, and salt in a food processor. Slowly add olive oil while blending until smooth. Serve with a drizzle of olive oil." 4,
   mkSubsection "Lunch Ideas.pdf" "Veggie Sushi Rolls Ingredients: 1 cup cooked sushi rice, 1/2 cucumber (julienned), 1/2 avocado (sliced), 1/4 cup carrot (julienned), 2 sheets nori (seaweed), soy sauce for dipping. Instructions: Lay a sheet of nori on a bamboo sushi mat. Spread a thin layer of sushi rice over the nori, leaving a 1-inch border at the top. Arrange the cucumber, avocado, and carrot in a line along the bottom edge of the rice. Roll the nori tightly using the bamboo mat. Slice into bite-sized pieces and serve with soy sauce." 11,
   mkSubsection "Dinner Ideas - Sides_3.pdf" "Macaroni and Cheese Ingredients: 2 cups elbow macaroni, 2 cups milk, 2 tablespoons butter, 2 tablespoons flour, 2 cups shredded cheddar cheese, 1 teaspoon salt, 1/2 teaspoon pepper. Instructions: Cook macaroni according to package instructions, then drain. Melt butter in a saucepan, stir in flour to make a roux. Gradually add milk, stirring constantly until thickened. Add cheese, salt, and pepper, stir until melted. Combine cheese sauce with macaroni. Serve warm." 8]

/-- `generate_food_contractor_output` (utils.py lines 328-397): the
sections and analysis are constants; `input_documents` is ignored. -/
def generate_food_contractor_output (metadata : Json) (input_documents : List Json) : Json :=
  .obj [("metadata", metadata),
        ("extracted_sections", .arr food_extracted_sections),
        ("subsection_analysis", .arr food_subsection_analysis)]

/-- The literal `section_mappings` dict of `generate_travel_planner_output`
(utils.py lines 403-409), as `(filename, (title, rank, page))`. -/
def travel_section_mappings : List (String × String × Nat × Nat) :=
  [("South of France - Cities.pdf", ("Comprehensive Guide to Major Cities in the South of France", 1, 1)),
   ("South of France - Things to Do.pdf", ("Coastal Adventures", 2, 2)),
   ("South of France - Cuisine.pdf", ("Culinary Experiences", 3, 6)),
   ("South of France - Tips and Tricks.pdf", ("General Packing Tips and Tricks", 4, 2)),
   ("South of France - Restaurants and Hotels.pdf", ("Dining and Accommodation", 5, 1))]

/-- The section entry generated for a document name found in
`section_mappings`, if any. -/
def sectionMappingEntry (s : String) : Option Json :=
  (travel_section_mappings.find? (fun p => p.1 == s)).map
    (fun p => mkSection p.1 p.2.1 p.2.2.1 p.2.2.2)

/-- Python `doc_name in section_mappings`: dict membership hashes the
candidate, so lists and dicts raise `TypeError`; non-string hashables are
simply absent. Returns the mapped section entry when present. -/
def pyHashMember (d : Json) : Except String (Option Json) :=
  match d with
  | .arr _ => .error "TypeError: unhashable type: list"
  | .obj _ => .error "TypeError: unhashable type: dict"
  | .str s => .ok (sectionMappingEntry s)
  | _ => .ok none

/-- The section-collection loop of `generate_travel_planner_output`
(utils.py lines 411-419) over the first five document names. -/
def travelLoop : List Json → Except String (List Json)
  | [] => .ok []
  | d :: rest =>
    match pyHashMember d with
    | .error e => .error e
    | .ok none => travelLoop rest
    | .ok (some sec) => (travelLoop rest).map (fun l => sec :: l)

/-- The nightlife section appended when
`"South of France - Things to Do.pdf"` is among the inputs (lines 421-428). -/
def nightlife_section : Json :=
  mkSection "South of France - Things to Do.pdf" "Nightlife and Entertainment" 5 11

/-- The literal `subsection_analysis` list of
`generate_travel_planner_output` (utils.py lines 431-457). -/
def travel_subsection_analysis : List Json :=
  [mkSubsection "South of France - Things to Do.pdf" "The South of France is renowned for its beautiful coastline along the Mediterranean Sea. Here are some activities to enjoy by the sea: Beach Hopping: Nice - Visit the sandy shores and enjoy the vibrant Promenade des Anglais; Antibes - Relax on the pebbled beaches and explore the charming old town; Saint-Tropez - Experience the exclusive beach clubs and glamorous atmosphere; Marseille to Cassis - Explore the stunning limestone cliffs and hidden coves of Calanques National Park; Îles d'Hyères - Discover pristine beaches and excellent snorkeling opportunities on islands like Porquerolles and Port-Cros; Cannes - Enjoy the sandy beaches and luxury beach clubs along the Boulevard de la Croisette; Menton - Visit the serene beaches and beautiful gardens in this charming town near the Italian border." 2,
   mkSubsection "South of France - Cuisine.pdf" "In addition to dining at top restaurants, there are several culinary experiences you should consider: Cooking Classes - Many towns and cities in the South of France offer cooking classes where you can learn to prepare traditional dishes like bouillabaisse, ratatouille, and tarte tropézienne. These classes are a great way to immerse yourself in the local culture and gain hands-on experience with regional recipes. Some classes even include a visit to a local market to shop for fresh ingredients. Wine Tours - The South of France is renowned for its wine regions, including Provence and Languedoc. Take a wine tour to visit vineyards, taste local wines, and learn about the winemaking process. Many wineries offer guided tours and tastings, giving you the opportunity to sample a variety of wines and discover new favorites." 6,
   mkSubsection "South of France - Things to Do.pdf" "The South of France offers a vibrant nightlife scene, with options ranging from chic bars to lively nightclubs: Bars and Lounges - Monaco: Enjoy classic cocktails and live jazz at Le Bar Americain, located in the Hôtel de Paris; Nice: Try creative cocktails at Le Comptoir du Marché, a trendy bar in the old town; Cannes: Experience dining and entertainment at La Folie Douce, with live music, DJs, and performances; Marseille: Visit Le Trolleybus, a popular bar with multiple rooms and music styles; Saint-Tropez: Relax at Bar du Port, known for its chic atmosphere and waterfront views. Nightclubs - Saint-Tropez: Dance at the famous Les Caves du Roy, known for its glamorous atmosphere and celebrity clientele; Nice: Party at High Club on the Promenade des Anglais, featuring multiple dance floors and top DJs; Cannes: Enjoy the stylish setting and rooftop terrace at La Suite, offering stunning views of Cannes." 11,
   mkSubsection "South of France - Things to Do.pdf" "Water Sports: Cannes, Nice, and Saint-Tropez - Try jet skiing or parasailing for a thrill; Toulon - Dive into the underwater world with scuba diving excursions to explore wrecks; Cerbère-Banyuls - Visit the marine reserve for an unforgettable diving experience; Mediterranean Coast - Charter a yacht or join a sailing tour to explore the coastline and nearby islands; Marseille - Go windsurfing or kitesurfing in the windy bays; Port Grimaud - Rent a paddleboard and explore the canals of this picturesque village; La Ciotat - Try snorkeling in the clear waters around the Île Verte." 2,
   mkSubsection "South of France - Tips and Tricks.pdf" "General Packing Tips and Tricks: Layering - The weather can vary, so pack layers to stay comfortable in different temperatures; Versatile Clothing - Choose items that can be mixed and matched to create multiple outfits, helping you pack lighter; Packing Cubes - Use packing cubes to organize your clothes and maximize suitcase space; Roll Your Clothes - Rolling clothes saves space and reduces wrinkles; Travel-Sized Toiletries - Bring travel-sized toiletries to save space and comply with airline regulations; Reusable Bags - Pack a few reusable bags for laundry, shoes, or shopping; First Aid Kit - Include a small first aid kit with band-aids, antiseptic wipes, and any necessary medications; Copies of Important Documents - Make copies of your passport, travel insurance, and other important documents. Keep them separate from the originals." 2]

/-- `generate_travel_planner_output` (utils.py lines 399-463): sections
are looked up from the first five document names in the fixed mapping,
a nightlife entry is appended when the Things-to-Do document is present,
and the subsection analysis is constant. -/
def generate_travel_planner_output (metadata : Json) (input_documents : List Json) :
    Except String Json :=
  match travelLoop (input_documents.take 5) with
  | .error e => .error e
  | .ok secs =>
    let extracted :=
      secs ++ (if input_documents.any (fun d => Json.beq d (.str "South of France - Things to Do.pdf"))
               then [nightlife_section] else [])
    .ok (.obj [("metadata", metadata),
               ("extracted_sections", .arr extracted),
               ("subsection_analysis", .arr travel_subsection_analysis)])

/-- The literal `extracted_sections` list of
`generate_hr_professional_output` (utils.py lines 527-558). -/
def hr_extracted_sections : List Json :=
  [mkSection "Learn Acrobat - Fill and Sign.pdf" "Change flat forms to fillable (Acrobat Pro)" 1 12,
   mkSection "Learn Acrobat - Create and Convert_1.pdf" "Create multiple PDFs from multiple files" 2 12,
   mkSection "Learn Acrobat - Create and Convert_1.pdf" "Convert clipboard content to PDF" 3 10,
   mkSection "Learn Acrobat - Fill and Sign.pdf" "Fill and sign PDF forms" 4 2,
   mkSection "Learn Acrobat - Request e-signatures_1.pdf" "Send a document to get signatures from others" 5 2]

/-- The literal `subsection_analysis` list of
`generate_hr_professional_output` (utils.py lines 561-587). -/
def hr_subsection_analysis : List Json :=
  [mkSubsection "Learn Acrobat - Fill and Sign.pdf" "To create an interactive form, use the Prepare Forms tool. See Create a form from an existing document." 12,
   mkSubsection "Learn Acrobat - Fill and Sign.pdf" "To enable the Fill & Sign tools, from the hamburger menu (File menu in macOS) choose Save As Other > Acrobat Reader Extended PDF > Enable More Tools (includes Form Fill-in & Save). The tools are enabled for the current form only. When you create a different form, redo this task to enable Acrobat Reader users to use the tools." 12,
   mkSubsection "Learn Acrobat - Fill and Sign.pdf" "Interactive forms contain fields that you can select and fill in. Flat forms do not have interactive fields. The Fill & Sign tool automatically detects the form fields like text fields, comb fields, checkboxes, and radio buttons. You can manually add text and other symbols anywhere on the form using the Fill & Sign tool if required." 2,
   mkSubsection "Learn Acrobat - Fill and Sign.pdf" "To fill text fields: From the left panel, select Fill in form fields, and then select the field where you want to add text. It displays a text field along with a toolbar. Select the text field again and enter your text. To reposition the text box to align it with the text field, select the textbox and hover over it. Once you see a plus icon with arrows, move the textbox to the desired position. To edit the text, select the text box. Once you see the cursor and keypad, edit the text and then click elsewhere to enter. To change the text size, select A or A as required." 2,
   mkSubsection "Learn Acrobat - Request e-signatures_1.pdf" "Open the PDF form in Acrobat or Acrobat Reader, and then choose All tools > Request E-signatures. Alternatively, you can select Sign from the top toolbar. The Request Signatures window is displayed. In the recipients field, add recipient email addresses in the order you want the document to be signed. The Mail and Message fields are just like the ones you use for sending an email and appear to your recipients in the same way. Change the default text in the Subject & Message area as appropriate." 2]

/-- `generate_hr_professional_output` (utils.py lines 509-593):
re-extracts the filenames and metadata from `data` (any exception
propagates to the caller's handler); the sections and analysis are
constants. -/
def generate_hr_professional_output (env : PyEnv) (data : Json) : Except String Json :=
  match extract_input_documents data with
  | .error e => .error e
  | .ok input_documents =>
    match persona_of data with
    | .error e => .error e
    | .ok personaJ =>
      match job_of data with
      | .error e => .error e
      | .ok jobJ =>
        .ok (.obj [("metadata", challengeMetadata env input_documents personaJ jobJ),
                   ("extracted_sections", .arr hr_extracted_sections),
                   ("subsection_analysis", .arr hr_subsection_analysis)])

/-- The body of `process_challenge_data` (utils.py lines 272-302) up to
its exception handler: collect filenames, build metadata, classify, and
dispatch to the three generators. -/
def process_challenge_data_body (env : PyEnv) (data : Json) : Except String Json :=
  match extract_input_documents data with
  | .error e => .error e
  | .ok input_documents =>
    match persona_of data with
    | .error e => .error e
    | .ok personaJ =>
      match job_of data with
      | .error e => .error e
      | .ok jobJ =>
        let metadata := challengeMetadata env input_documents personaJ jobJ
        match determine_challenge_type input_documents personaJ with
        | .error e => .error e
        | .ok challenge_type =>
          if challenge_type = "food_contractor" then
            .ok (generate_food_contractor_output metadata input_documents)
          else if challenge_type = "hr_professional" then
            generate_hr_professional_output env data
          else
            generate_travel_planner_output metadata input_documents

/-- `process_challenge_data` with its `except` handler: any exception is
caught and returned as an error dictionary. -/
def process_challenge_data (env : PyEnv) (data : Json) : Json :=
  match process_challenge_data_body env data with
  | .error e => .obj [("error", .str e)]
  | .ok r => r

/-- `file_type.replace('.', '')` as used for the processing-method name. -/
def stripDots (s : String) : String := String.mk (s.data.filter (fun c => c ≠ '.'))

/-- Python `bytes.lower()`: ASCII-only. -/
def bytesLower (bs : List Nat) : List Nat :=
  bs.map (fun b => if 65 ≤ b ∧ b ≤ 90 then b + 32 else b)

/-- ASCII whitespace bytes recognised by `bytes.split()`. -/
def byteIsSpace (b : Nat) : Bool := b == 32 || b == 9 || b == 10 || b == 13 || b == 11 || b == 12

/-- Worker for `bytesSplitWs`. -/
def bytesSplitWsAux (cur : List Nat) : List Nat → List (List Nat)
  | [] => if cur.isEmpty then [] else [cur.reverse]
  | b :: rest =>
    if byteIsSpace b then
      if cur.isEmpty then bytesSplitWsAux [] rest
      else cur.reverse :: bytesSplitWsAux [] rest
    else bytesSplitWsAux (b :: cur) rest

/-- Python `bytes.split()` with no argument. -/
def bytesSplitWs (bs : List Nat) : List (List Nat) := bytesSplitWsAux [] bs

/-- Worker for `bytesSplitlines`. -/
def bytesSplitlinesAux (cur : List Nat) : List Nat → List (List Nat)
  | [] => if cur.isEmpty then [] else [cur.reverse]
  | 13 :: 10 :: rest => cur.reverse :: bytesSplitlinesAux [] rest
  | b :: rest =>
    if b == 10 || b == 13 then cur.reverse :: bytesSplitlinesAux [] rest
    else bytesSplitlinesAux (b :: cur) rest

/-- Python `bytes.splitlines()` (breaks on LF, CR and CRLF only). -/
def bytesSplitlines (bs : List Nat) : List (List Nat) := bytesSplitlinesAux [] bs

/-- The line-199 routing test of `process_data`:
`"challenge_info" in parsed_data and "documents" in parsed_data`,
with Python's short-circuit `and`. -/
def challengeFieldCheck (parsed_data : Json) : Except String Bool :=
  match pyContains "challenge_info" parsed_data with
  | .error e => .error e
  | .ok false => .ok false
  | .ok true => pyContains "documents" parsed_data

/-- The `.txt` branch of `process_data` (utils.py lines 222-232). -/
def processTxt (s : String) : List (String × Json) :=
  [("text_processing", .obj
    [("word_frequency", .obj ((calculate_word_frequency s).map (fun p => (p.1, Json.num p.2)))),
     ("sentiment_indicators", detect_sentiment_indicators s),
     ("text_statistics", .obj
       [("avg_word_length", .rat (calculate_avg_word_length s)),
        ("unique_words", .num (pySplitWs (pyLower s)).eraseDups.length)])])]

/-- `process_data` (utils.py lines 187-246). The `.json` branch parses,
routes challenge-shaped inputs to `process_challenge_data`, and otherwise
summarises; `.csv` counts lines; `.txt` computes the text statistics;
anything else records a truncated MD5 signature. A `TypeError` raised by
the routing test is caught by the function's outer handler. Binary
content in the text branches (unreachable from `main.py`, whose read
mode matches this dispatch) follows Python's `bytes` behaviour: the
word-frequency and average-length helpers catch their internal errors
and return `{}` and `0`, sentiment returns its error dictionary, and
byte-string lines are modelled as arrays of byte values. -/
def process_data (env : PyEnv) (content : PyContent) (file_type : String) : Json :=
  let processed : List (String × Json) :=
    [("processing_method", .str ("standard_" ++ stripDots file_type ++ "_processing")),
     ("processed_at", .str env.nowIso)]
  if file_type == ".json" then
    match (match content with | .text s => env.loads s | .binary bs => env.loadsBytes bs) with
    | .error e =>
      .obj (pyUpdate processed
        [("parsed_successfully", .bool false), ("error", .str e), ("validation_status", .str "invalid")])
    | .ok parsed_data =>
      match challengeFieldCheck parsed_data with
      | .error e => .obj [("error", .str e)]
      | .ok true => process_challenge_data env parsed_data
      | .ok false =>
        .obj (pyUpdate processed
          [("parsed_successfully", .bool true),
           ("data_summary", generate_json_summary parsed_data),
           ("validation_status", .str "valid")])
  else if file_type == ".csv" then
    match content with
    | .text s =>
      let lines := pySplitlines s
      .obj (pyUpdate processed
        [("row_count", .num lines.length),
         ("sample_data", .arr ((lines.take 3).map Json.str)),
         ("processing_status", .str "basic_analysis_complete")])
    | .binary bs =>
      let lines := bytesSplitlines bs
      .obj (pyUpdate processed
        [("row_count", .num lines.length),
         ("sample_data", .arr ((lines.take 3).map (fun l => Json.arr (l.map Json.num)))),
         ("processing_status", .str "basic_analysis_complete")])
  else if file_type == ".txt" then
    match content with
    | .text s => .obj (pyUpdate processed (processTxt s))
    | .binary bs =>
      .obj (pyUpdate processed
        [("text_processing", .obj
          [("word_frequency", .obj []),
           ("sentiment_indicators", .obj [("error", .str "Unable to analyze sentiment")]),
           ("text_statistics", .obj
             [("avg_word_length", .num 0),
              ("unique_words", .num (bytesSplitWs (bytesLower bs)).eraseDups.length)])])])
  else
    .obj (pyUpdate processed
      [("generic_processing", .bool true),
       ("content_signature", .str (strTake 8 (env.md5hex (contentBytes content))))])

/-- The error report of `process_single_file` (main.py lines 86-91). -/
def error_record (env : PyEnv) (f : InputFile) (e : String) : Json :=
  .obj [("filename", .str f.name),
        ("status", .str "error"),
        ("error_message", .str e),
        ("timestamp", .str env.nowIso)]

/-- The read performed at main.py lines 58-63: text mode for
`.txt`/`.json`/`.csv` (lower-cased suffix), binary mode otherwise. -/
def readFor (f : InputFile) : Except String PyContent :=
  if pyLower f.suffix == ".txt" || pyLower f.suffix == ".json" || pyLower f.suffix == ".csv" then
    f.readText.map PyContent.text
  else
    f.readBinary.map PyContent.binary

/-- `process_single_file` (main.py lines 54-91): read, run the three
component steps (each of which catches its own exceptions), and assemble
the success report; the second `stat` call at line 73 can raise, and any
exception reaching the function's handler yields the error report. -/
def process_single_file (env : PyEnv) (f : InputFile) : Json :=
  match readFor f with
  | .error e => error_record env f e
  | .ok content =>
    let metadata := extract_metadata env f content
    let analysis_result := analyze_file_content env content (pyLower f.suffix) (some f.name)
    let processed_data := process_data env content (pyLower f.suffix)
    match f.statResult with
    | .error e => error_record env f e
    | .ok st =>
      .obj [("filename", .str f.name),
            ("file_size", .num st.st_size),
            ("file_type", .str (pyLower f.suffix)),
            ("status", .str "success"),
            ("metadata", metadata),
            ("analysis", analysis_result),
            ("processed_data", processed_data),
            ("timestamp", .str env.nowIso)]

/-- The output filename chosen at main.py lines 40-43. -/
def output_name (f : InputFile) : String :=
  if pyLower f.suffix == ".json" then f.stem ++ "_processed.json" else f.stem ++ ".json"

/-- `process_files` (main.py lines 25-52): one output per input file;
`process_single_file` never raises (its handler returns the error
report), and writing is modelled as always succeeding, so the per-file
`except`/`continue` of the driver loop is never taken. -/
def process_files (env : PyEnv) (files : List InputFile) : List (String × Json) :=
  files.map (fun f => (output_name f, process_single_file env f))

/-- The challenge classifier as the spec words it: two literal roles
short-circuit; otherwise the highest-scoring of the three keyword
categories wins, ties resolved by the fixed priority order
travel > food > HR (the order realised by the code's comparisons). -/
def spec_determine_challenge_type (docs : List String) (persona : String) : String :=
  if pyLower persona = "food contractor" then "food_contractor"
  else if pyLower persona = "hr professional" then "hr_professional"
  else
    let doc_text := pyLower (String.intercalate " " docs)
    let food_score := countOccurring food_keywords doc_text
    let travel_score := countOccurring travel_keywords doc_text
    let hr_score := countOccurring hr_keywords doc_text
    let best := max food_score (max travel_score hr_score)
    if travel_score = best then "travel_planner"
    else if food_score = best then "food_contractor"
    else "hr_professional"

/-- The travel `extracted_sections` list as described by claim C9: one
entry per first-five input filename found in the fixed mapping, in input
order, plus the nightlife entry when the Things-to-Do document is among
the inputs. -/
def travel_sections_spec (names : List String) : List Json :=
  ((names.take 5).filterMap sectionMappingEntry) ++
  (if names.any (fun n => n == "South of France - Things to Do.pdf") then [nightlife_section]
   else [])

/-- A concrete environment for witnesses: `loads` recognises a few fixed
content strings, everything else is a decode error; hashing and
timestamps are arbitrary but fixed. -/
def mkEnv (loads : String → Except String Json) : PyEnv :=
  { loads := loads
    loadsBytes := fun _ => .error "Expecting value: line 1 column 1 (char 0)"
    md5hex := fun _ => "d41d8cd98f00b204e9800998ecf8427e"
    fromtimestampIso := fun t => .ok (toString t)
    nowIso := "2025-01-01T00:00:00"
    processPdf := fun _ => [] }

/-- An environment whose `loads` never succeeds. -/
def envPlain : PyEnv := mkEnv (fun _ => .error "Expecting value: line 1 column 1 (char 0)")

/-- An environment whose timestamp conversion always raises, modelling
`datetime.fromtimestamp` on an out-of-range timestamp. -/
def envIsoFail : PyEnv :=
  { loads := fun _ => .error "Expecting value: line 1 column 1 (char 0)"
    loadsBytes := fun _ => .error "Expecting value: line 1 column 1 (char 0)"
    md5hex := fun _ => "d41d8cd98f00b204e9800998ecf8427e"
    fromtimestampIso := fun _ => .error "OverflowError: timestamp out of range"
    nowIso := "2025-01-01T00:00:00"
    processPdf := fun _ => [] }

/-- A challenge-shaped value whose persona role is "Food Contractor" but
whose document list names no food document at all (one entry even lacks
a filename). -/
def foodChallengeData : Json :=
  .obj [("challenge_info", .obj [("challenge_id", .str "round_1b_001")]),
        ("documents", .arr [.obj [("filename", .str "Anything At All.txt")],
                            .obj [("title", .str "no filename here")]]),
        ("persona", .obj [("role", .str "Food Contractor")]),
        ("job_to_be_done", .obj [("task", .str "Prepare a menu")])]

/-- A parsed value containing `persona`, `job_to_be_done` and `documents`
but no `challenge_info` field. -/
def personaOnlyData : Json :=
  .obj [("persona", .obj [("role", .str "Food Contractor")]),
        ("job_to_be_done", .obj [("task", .str "Menu planning")]),
        ("documents", .arr [])]

/-- Environment whose `loads` maps the content `"CEX"` to
`personaOnlyData` and `"CHAL"` to `foodChallengeData`. -/
def envRouting : PyEnv :=
  mkEnv (fun s =>
    if s = "CEX" then .ok personaOnlyData
    else if s = "CHAL" then .ok foodChallengeData
    else .error "Expecting value: line 1 column 1 (char 0)")

/-- Environment whose `loads` parses `"[1, 2]"` to a two-element array
and fails on everything else. -/
def envArr : PyEnv :=
  mkEnv (fun s =>
    if s = "[1, 2]" then .ok (.arr [.num 1, .num 2]) else .error "Expecting value: line 1 column 1 (char 0)")

/-- A text file whose text-mode read fails (corrupt UTF-8). -/
def fileBroken : InputFile :=
  { name := "broken.txt", stem := "broken", suffix := ".txt"
    readText := .error "UnicodeDecodeError: invalid start byte"
    readBinary := .ok [255, 254]
    statResult := .ok ⟨3, 100, 200⟩ }

/-- A small valid text file. -/
def fileNotes : InputFile :=
  { name := "notes.txt", stem := "notes", suffix := ".txt"
    readText := .ok "hi"
    readBinary := .ok [104, 105]
    statResult := .ok ⟨2, 100, 200⟩ }

/-- A second valid file with different path metadata but, in the C8
witness, the same content as `fileNotes`. -/
def fileCopy : InputFile :=
  { name := "copy.md", stem := "copy", suffix := ".md"
    readText := .ok "hi"
    readBinary := .ok [104, 105]
    statResult := .ok ⟨2, 555, 666⟩ }

/-- A file whose `stat` raises (e.g. removed between read and stat). -/
def fileStatGone : InputFile :=
  { name := "gone.txt", stem := "gone", suffix := ".txt"
    readText := .ok "still here"
    readBinary := .ok []
    statResult := .error "FileNotFoundError: stat" }

theorem mem_incrCount {acc : List (String × Nat)} {w : String} {p : String × Nat}
    (h : p ∈ incrCount acc w) : (∃ q ∈ acc, p.1 = q.1) ∨ p.1 = w := by
  unfold incrCount at h
  split at h
  · obtain ⟨q, hq, hpq⟩ := List.mem_map.1 h
    refine Or.inl ⟨q, hq, ?_⟩
    by_cases hc : q.1 == w
    · rw [← hpq]; simp [hc]
    · rw [← hpq]; simp [hc]
  · rcases List.mem_append.1 h with h | h
    · exact Or.inl ⟨p, h, rfl⟩
    · simp only [List.mem_singleton] at h
      exact Or.inr (by rw [h])

theorem countStep_key_length {acc : List (String × Nat)} {w : String}
    (hacc : ∀ p ∈ acc, 2 < p.1.length) : ∀ p ∈ countStep acc w, 2 < p.1.length := by
  intro p hp
  unfold countStep at hp
  dsimp only at hp
  split at hp
  · rename_i hcond
    rcases mem_incrCount hp with ⟨q, hq, hpq⟩ | hpw
    · rw [hpq]; exact hacc q hq
    · rw [hpw]; exact hcond.2
  · exact hacc p hp

theorem foldl_countStep_key_length (ws : List String) (acc : List (String × Nat))
    (hacc : ∀ p ∈ acc, 2 < p.1.length) : ∀ p ∈ ws.foldl countStep acc, 2 < p.1.length := by
  induction ws generalizing acc with
  | nil => simpa using hacc
  | cons w ws ih =>
    intro p hp
    simp only [List.foldl_cons] at hp
    exact ih _ (countStep_key_length hacc) p hp

theorem getStrs_map_str (l : List String) : getStrs (l.map Json.str) = .ok l := by
  induction l with
  | nil => rfl
  | cons s rest ih => simp only [List.map_cons, getStrs, ih]; rfl

theorem pyJoin_map_str (l : List String) :
    pyJoin " " (l.map Json.str) = .ok (String.intercalate " " l) := by
  unfold pyJoin
  rw [getStrs_map_str]
  rfl

theorem challengeSelect_eq (fs ts hs : Nat) :
    (if hs > max fs ts then "hr_professional"
     else if fs > ts then "food_contractor" else "travel_planner")
      = (if ts = max fs (max ts hs) then "travel_planner"
         else if fs = max fs (max ts hs) then "food_contractor" else "hr_professional") := by
  split_ifs <;> first | rfl | (exfalso; omega)

/-- C3: the challenge classifier of `determine_challenge_type` agrees
with the spec's description — two literal lower-cased roles win
directly, otherwise the keyword scores of the lower-cased space-joined
document names decide, the highest score winning with ties resolved by
the fixed priority order travel > food > HR. -/
theorem c3_challenge_type_selection (docs : List String) (persona : String) :
    determine_challenge_type (docs.map Json.str) (.str persona)
      = .ok (spec_determine_challenge_type docs persona) := by
  unfold determine_challenge_type spec_determine_challenge_type pyLowerJ
  rw [pyJoin_map_str]
  by_cases h1 : pyLower persona = "food contractor"
  · simp [h1]
  · by_cases h2 : pyLower persona = "hr professional"
    · simp [h1, h2]
    · simp only [h1, h2, if_false]
      rw [challengeSelect_eq]

/-- C4: the word-frequency result has at most 5 entries, is sorted by
descending count, contains only cleaned tokens of length strictly
greater than 2, and on `"hello world hello"` yields exactly
`{"hello": 2, "world": 1}`. -/
theorem c4_word_frequency (text : String) :
    (calculate_word_frequency text).length ≤ 5 ∧
    (calculate_word_frequency text).Pairwise byCountDesc ∧
    (∀ p ∈ calculate_word_frequency text, 2 < p.1.length) ∧
    calculate_word_frequency "hello world hello" = [("hello", 2), ("world", 1)] := by
  refine ⟨?_, ?_, ?_, by decide⟩
  · exact List.length_take_le 5 _
  · exact (List.sorted_insertionSort byCountDesc _).sublist (List.take_sublist 5 _)
  · intro p hp
    unfold calculate_word_frequency at hp
    have hp2 : p ∈ List.insertionSort byCountDesc (wordCounts (pySplitWs (pyLower text))) :=
      List.take_subset 5 _ hp
    have hp3 : p ∈ wordCounts (pySplitWs (pyLower text)) :=
      (List.perm_insertionSort byCountDesc _).mem_iff.1 hp2
    exact foldl_countStep_key_length _ [] (by simp) p hp3

/-- C5: the sentiment result counts, over the fixed 8-word lexicons, the
words contained as substrings of the lower-cased text (not tokenized),
and its score is the positive count minus the negative count. -/
theorem c5_sentiment_score_formula (text : String) :
    detect_sentiment_indicators text =
      .obj [("positive_indicators", .num (positive_words.countP (fun w => pyIn w (pyLower text)))),
            ("negative_indicators", .num (negative_words.countP (fun w => pyIn w (pyLower text)))),
            ("sentiment_score",
             .num ((positive_words.countP (fun w => pyIn w (pyLower text)) : Int)
               - (negative_words.countP (fun w => pyIn w (pyLower text)) : Int)))] ∧
    positive_words.length = 8 ∧ negative_words.length = 8 :=
  ⟨rfl, rfl, rfl⟩

/-- C8: the `file_hash` recorded by `extract_metadata` is a function of
the content bytes alone — for any two files (any paths, any stat data)
whose metadata extraction completes, the same content yields the same
hash, namely the MD5 hex digest of the content bytes. -/
theorem c8_hash_deterministic (env : PyEnv) (f1 f2 : InputFile) (content : PyContent)
    (st1 st2 : StatInfo) (t1 u1 t2 u2 : String)
    (h1 : f1.statResult = .ok st1) (h2 : f2.statResult = .ok st2)
    (hc1 : env.fromtimestampIso st1.st_ctime = .ok t1)
    (hm1 : env.fromtimestampIso st1.st_mtime = .ok u1)
    (hc2 : env.fromtimestampIso st2.st_ctime = .ok t2)
    (hm2 : env.fromtimestampIso st2.st_mtime = .ok u2) :
    pyDictGet (extract_metadata env f1 content) "file_hash"
      = some (.str (env.md5hex (contentBytes content))) ∧
    pyDictGet (extract_metadata env f2 content) "file_hash"
      = some (.str (env.md5hex (contentBytes content))) ∧
    pyDictGet (extract_metadata env f1 content) "file_hash"
      = pyDictGet (extract_metadata env f2 content) "file_hash" := by
  simp only [extract_metadata, h1, h2, hc1, hm1, hc2, hm2]
  exact ⟨rfl, rfl, rfl⟩

/-- Witness for C8 at two concrete files sharing the content `"hi"`. -/
theorem c8_hash_deterministic_witness :
    pyDictGet (extract_metadata envPlain fileNotes (.text "hi")) "file_hash"
      = some (.str (envPlain.md5hex (contentBytes (.text "hi")))) ∧
    pyDictGet (extract_metadata envPlain fileCopy (.text "hi")) "file_hash"
      = some (.str (envPlain.md5hex (contentBytes (.text "hi")))) ∧
    pyDictGet (extract_metadata envPlain fileNotes (.text "hi")) "file_hash"
      = pyDictGet (extract_metadata envPlain fileCopy (.text "hi")) "file_hash" :=
  c8_hash_deterministic envPlain fileNotes fileCopy (.text "hi") ⟨2, 100, 200⟩ ⟨2, 555, 666⟩
    "100" "200" "555" "666" rfl rfl rfl rfl rfl rfl

/-- C1: for every challenge input whose filename extraction succeeds
(with any documents whatsoever) and whose persona role is a string that
lower-cases to "food contractor", the challenge output's
`extracted_sections` and `subsection_analysis` are exactly the fixed
food-contractor payload. -/
theorem c1_food_contractor_fixed_payload (env : PyEnv) (data : Json) (docs : List Json)
    (r : String) (jv : Json)
    (hdocs : extract_input_documents data = .ok docs)
    (hp : persona_of data = .ok (.str r))
    (hj : job_of data = .ok jv)
    (hlow : pyLower r = "food contractor") :
    pyDictGet (process_challenge_data env data) "extracted_sections"
      = some (.arr food_extracted_sections) ∧
    pyDictGet (process_challenge_data env data) "subsection_analysis"
      = some (.arr food_subsection_analysis) := by
  have hdet : determine_challenge_type docs (.str r) = .ok "food_contractor" := by
    unfold determine_challenge_type pyLowerJ
    simp [hlow]
  simp only [process_challenge_data, process_challenge_data_body, hdocs, hp, hj, hdet]
  exact ⟨rfl, rfl⟩

/-- Witness for C1: a concrete challenge input with persona role
"Food Contractor" and documents unrelated to any food content. -/
theorem c1_food_contractor_fixed_payload_witness :
    pyDictGet (process_challenge_data envPlain foodChallengeData) "extracted_sections"
      = some (.arr food_extracted_sections) ∧
    pyDictGet (process_challenge_data envPlain foodChallengeData) "subsection_analysis"
      = some (.arr food_subsection_analysis) :=
  c1_food_contractor_fixed_payload envPlain foodChallengeData
    [.str "Anything At All.txt"] "Food Contractor" (.str "Prepare a menu") rfl rfl rfl rfl

/-- Counterexample to C2 as stated: `personaOnlyData` contains the
fields `persona`, `job_to_be_done` and `documents`, yet `process_data`
runs the standard JSON analysis (its output carries
`parsed_successfully` and no challenge fields), because the code's
routing test looks for `challenge_info`, not `persona`/`job_to_be_done`. -/
theorem c2_trigger_counterexample :
    pyContains "persona" personaOnlyData = .ok true ∧
    pyContains "job_to_be_done" personaOnlyData = .ok true ∧
    pyContains "documents" personaOnlyData = .ok true ∧
    pyDictGet (process_data envRouting (.text "CEX") ".json") "parsed_successfully"
      = some (.bool true) ∧
    pyDictGet (process_data envRouting (.text "CEX") ".json") "extracted_sections" = none ∧
    pyDictGet (process_data envRouting (.text "CEX") ".json") "subsection_analysis" = none :=
  ⟨rfl, rfl, rfl, rfl, rfl, rfl⟩

/-- C2 (amended): for a `.json` input that parses, the canned-response
path is taken exactly when the parsed top-level value contains both
`challenge_info` and `documents` (Python membership); when the test is
false the standard JSON analysis runs instead. -/
theorem c2_trigger_amended (env : PyEnv) (s : String) (j : Json)
    (hload : env.loads s = .ok j) :
    (challengeFieldCheck j = .ok true →
      process_data env (.text s) ".json" = process_challenge_data env j) ∧
    (challengeFieldCheck j = .ok false →
      pyDictGet (process_data env (.text s) ".json") "parsed_successfully" = some (.bool true) ∧
      pyDictGet (process_data env (.text s) ".json") "extracted_sections" = none) := by
  constructor
  · intro hc
    simp only [process_data, hload, hc]
    rfl
  · intro hc
    simp only [process_data, hload, hc]
    exact ⟨rfl, rfl⟩

/-- Witness for the amended C2: a parsed value with `challenge_info` and
`documents` is routed to `process_challenge_data`. -/
theorem c2_trigger_amended_witness :
    process_data envRouting (.text "CHAL") ".json"
      = process_challenge_data envRouting foodChallengeData :=
  (c2_trigger_amended envRouting "CHAL" foodChallengeData rfl).1 rfl

/-- C6: for a `.json` text input, when `loads` succeeds the
`json_structure` analysis records validity, the parsed value's type name
and its key count (`"N/A"` for non-objects); when `loads` fails it
records invalidity, and the analysis result is a normal analysis
dictionary with no `error` field. -/
theorem c6_json_structure_analysis (env : PyEnv) (s : String) (fp : Option String) :
    (∀ j, env.loads s = .ok j →
      pyDictGet (analyze_file_content env (.text s) ".json" fp) "json_structure"
        = some (.obj [("is_valid_json", .bool true),
                      ("top_level_type", .str (typeName j)),
                      ("key_count", keyCountVal j)])) ∧
    (∀ msg, env.loads s = .error msg →
      pyDictGet (analyze_file_content env (.text s) ".json" fp) "json_structure"
        = some (.obj [("is_valid_json", .bool false)]) ∧
      pyDictGet (analyze_file_content env (.text s) ".json" fp) "error" = none) := by
  constructor
  · intro j hj
    simp only [analyze_file_content, hj]
    rfl
  · intro msg hmsg
    simp only [analyze_file_content, hmsg]
    exact ⟨rfl, rfl⟩

/-- Witness for C6: a valid array input and a malformed input. -/
theorem c6_json_structure_analysis_witness :
    pyDictGet (analyze_file_content envArr (.text "[1, 2]") ".json" none) "json_structure"
      = some (.obj [("is_valid_json", .bool true),
                    ("top_level_type", .str "list"),
                    ("key_count", .str "N/A")]) ∧
    pyDictGet (analyze_file_content envArr (.text "oops") ".json" none) "json_structure"
      = some (.obj [("is_valid_json", .bool false)]) := by
  constructor
  · exact (c6_json_structure_analysis envArr "[1, 2]" none).1 (.arr [.num 1, .num 2]) rfl
  · exact ((c6_json_structure_analysis envArr "oops" none).2
      "Expecting value: line 1 column 1 (char 0)" rfl).1

/-- C7: one output per input file regardless of failures; a file whose
read raises yields the error record (status `"error"` with the message),
and the concrete two-file directory — one corrupt file, one valid
`.txt` — produces exactly one error output followed by one success
output. -/
theorem c7_per_file_error_isolation (env : PyEnv) (f : InputFile) (e : String)
    (files : List InputFile) (hread : readFor f = .error e) :
    (process_files env files).length = files.length ∧
    pyDictGet (process_single_file env f) "status" = some (.str "error") ∧
    pyDictGet (process_single_file env f) "error_message" = some (.str e) ∧
    (process_files envPlain [fileBroken, fileNotes]).map (fun p => pyDictGet p.2 "status")
      = [some (.str "error"), some (.str "success")] := by
  refine ⟨by simp [process_files], ?_, ?_, by rfl⟩
  · simp only [process_single_file, hread]
    rfl
  · simp only [process_single_file, hread]
    rfl

/-- Witness for C7 at the concrete two-file directory. -/
theorem c7_per_file_error_isolation_witness :
    (process_files envPlain [fileBroken, fileNotes]).length = 2 ∧
    pyDictGet (process_single_file envPlain fileBroken) "status" = some (.str "error") ∧
    pyDictGet (process_single_file envPlain fileBroken) "error_message"
      = some (.str "UnicodeDecodeError: invalid start byte") ∧
    (process_files envPlain [fileBroken, fileNotes]).map (fun p => pyDictGet p.2 "status")
      = [some (.str "error"), some (.str "success")] :=
  c7_per_file_error_isolation envPlain fileBroken "UnicodeDecodeError: invalid start byte"
    [fileBroken, fileNotes] rfl

theorem travelLoop_map_str (l : List String) :
    travelLoop (l.map Json.str) = .ok (l.filterMap sectionMappingEntry) := by
  induction l with
  | nil => rfl
  | cons n rest ih =>
    have hm : pyHashMember (Json.str n) = .ok (sectionMappingEntry n) := rfl
    cases h : sectionMappingEntry n with
    | none => simp only [List.map_cons, travelLoop, hm, h, ih, List.filterMap_cons]
    | some sec => simp only [List.map_cons, travelLoop, hm, h, ih, List.filterMap_cons, Except.map]

theorem anyBeq_map_str (l : List String) (t : String) :
    (l.map Json.str).any (fun d => Json.beq d (.str t)) = l.any (fun n => n == t) := by
  induction l with
  | nil => rfl
  | cons n rest ih =>
    simp only [List.map_cons, List.any_cons, ih]
    rfl

/-- C9: the travel-planner `extracted_sections` are derived from the
input filenames — one mapped entry per first-five name found in the
fixed mapping, in input order, plus the nightlife entry when the
Things-to-Do document is present anywhere — and are empty when no name
matches the mapping; by contrast the HR and food outputs carry constant
section lists. -/
theorem c9_travel_sections_derived (meta : Json) (names : List String) (env : PyEnv)
    (data : Json) :
    generate_travel_planner_output meta (names.map Json.str)
      = .ok (.obj [("metadata", meta),
                   ("extracted_sections", .arr (travel_sections_spec names)),
                   ("subsection_analysis", .arr travel_subsection_analysis)]) ∧
    ((∀ n ∈ names, sectionMappingEntry n = none) → travel_sections_spec names = []) ∧
    (∀ docs p jv, extract_input_documents data = .ok docs →
      persona_of data = .ok p → job_of data = .ok jv →
      generate_hr_professional_output env data
        = .ok (.obj [("metadata", challengeMetadata env docs p jv),
                     ("extracted_sections", .arr hr_extracted_sections),
                     ("subsection_analysis", .arr hr_subsection_analysis)])) ∧
    (∀ m docs2, pyDictGet (generate_food_contractor_output m docs2) "extracted_sections"
      = some (.arr food_extracted_sections)) := by
  refine ⟨?_, ?_, ?_, fun m docs2 => rfl⟩
  · unfold generate_travel_planner_output travel_sections_spec
    have h5 : (names.map Json.str).take 5 = (names.take 5).map Json.str :=
      (List.map_take Json.str names 5).symm
    rw [h5, travelLoop_map_str, anyBeq_map_str]
  · intro hnone
    have hfm : (names.take 5).filterMap sectionMappingEntry = [] :=
      List.filterMap_eq_nil_iff.2 (fun a ha => hnone a (List.take_subset 5 names ha))
    have hany : names.any (fun n => n == "South of France - Things to Do.pdf") = false := by
      rw [List.any_eq_false]
      intro x hx hbeq
      have hx2 : x = "South of France - Things to Do.pdf" := eq_of_beq hbeq
      subst hx2
      exact Option.noConfusion (hnone _ hx)
    unfold travel_sections_spec
    rw [hfm, hany]
    rfl
  · intro docs p jv h1 h2 h3
    simp only [generate_hr_professional_output, h1, h2, h3]

/-- Witness for C9: an unmapped filename list yields no sections, and a
concrete HR invocation produces the constant section list. -/
theorem c9_travel_sections_derived_witness :
    travel_sections_spec ["Unknown.pdf"] = [] ∧
    generate_hr_professional_output envPlain foodChallengeData
      = .ok (.obj [("metadata", challengeMetadata envPlain [.str "Anything At All.txt"]
                     (.str "Food Contractor") (.str "Prepare a menu")),
                   ("extracted_sections", .arr hr_extracted_sections),
                   ("subsection_analysis", .arr hr_subsection_analysis)]) := by
  constructor
  · exact (c9_travel_sections_derived (.obj []) ["Unknown.pdf"] envPlain foodChallengeData).2.1
      (by intro n hn; simp only [List.mem_singleton] at hn; subst hn; rfl)
  · exact (c9_travel_sections_derived (.obj []) ["Unknown.pdf"] envPlain foodChallengeData).2.2.1
      [.str "Anything At All.txt"] (.str "Food Contractor") (.str "Prepare a menu") rfl rfl rfl

/-- C10: the per-file status is `"success"` exactly when the read and
the line-73 `stat` both succeed — component steps never decide it, for
any environment, however their internals fail — and a failing timestamp
conversion surfaces only as an `error` dictionary embedded under
`metadata` while the file still reports success. -/
theorem c10_component_failures_do_not_fail_file (env : PyEnv) (f : InputFile) :
    pyDictGet (process_single_file env f) "status"
      = some (.str (match readFor f, f.statResult with
                    | .ok _, .ok _ => "success"
                    | _, _ => "error")) ∧
    (∀ c st m, readFor f = .ok c → f.statResult = .ok st →
      env.fromtimestampIso st.st_ctime = .error m →
      pyDictGet (process_single_file env f) "metadata" = some (.obj [("error", .str m)]) ∧
      pyDictGet (process_single_file env f) "status" = some (.str "success")) := by
  constructor
  · cases hr : readFor f with
    | error e =>
      simp only [process_single_file, hr, error_record]
      rfl
    | ok c =>
      cases hs : f.statResult with
      | error e =>
        simp only [process_single_file, hr, hs, error_record]
        rfl
      | ok st =>
        simp only [process_single_file, hr, hs]
        rfl
  · intro c st m h1 h2 h3
    simp only [process_single_file, h1, h2, extract_metadata, h3]
    exact ⟨rfl, rfl⟩

/-- Witness for C10: a readable file under a failing clock still reports
success with the error fragment under `metadata`; a failing read or a
failing `stat` yields the error status. -/
theorem c10_component_failures_do_not_fail_file_witness :
    pyDictGet (process_single_file envIsoFail fileNotes) "metadata"
      = some (.obj [("error", .str "OverflowError: timestamp out of range")]) ∧
    pyDictGet (process_single_file envIsoFail fileNotes) "status" = some (.str "success") ∧
    pyDictGet (process_single_file envPlain fileBroken) "status" = some (.str "error") ∧
    pyDictGet (process_single_file envPlain fileStatGone) "status" = some (.str "error") := by
  refine ⟨?_, ?_, ?_, ?_⟩
  · exact ((c10_component_failures_do_not_fail_file envIsoFail fileNotes).2
      (.text "hi") ⟨2, 100, 200⟩ "OverflowError: timestamp out of range" rfl rfl rfl).1
  · exact ((c10_component_failures_do_not_fail_file envIsoFail fileNotes).2
      (.text "hi") ⟨2, 100, 200⟩ "OverflowError: timestamp out of range" rfl rfl rfl).2
  · exact (c10_component_failures_do_not_fail_file envPlain fileBroken).1
  · exact (c10_component_failures_do_not_fail_file envPlain fileStatGone).1

end FileAnalysis
